import Mathlib

/-!
Verification of the ultrareach360-api messaging/auth core: a shallow
embedding of the email dispatch router, the error mapping of the
channel providers, the token validator, the login handlers and the SMS
handler, with theorems checking the testable properties of the spec.
-/

namespace Ultrareach

/-! ## Email dispatch layer (src/lib/email): types from types.ts -/

/-- The three registry keys of the provider map (EmailProviderType). -/
inductive EmailProviderType where
  | sendgrid
  | resend
  | smtp
deriving DecidableEq, Repr

/-- EmailMessage from types.ts (field names to/from are reserved words
here, so they appear as toAddr/fromAddr). -/
structure EmailMessage where
  toAddr : String
  fromAddr : String
  subject : String
  text : String
  html : String
deriving DecidableEq, Repr

/-- EmailSendResult from types.ts: optional fields are absent (none) when
the handler does not set them. -/
structure EmailSendResult where
  success : Bool
  messageId : Option String := none
  error : Option String := none
  provider : Option String := none
deriving DecidableEq, Repr

/-- A channel provider: name, the configured flag computed once at
construction, and the send operation (modelled as a function from the
message to the result of the provider, since each provider is deterministic
for a fixed environment and transport behaviour). -/
structure EmailProvider where
  name : String
  isConfigured : Bool
  send : EmailMessage → EmailSendResult

/-- EmailServiceConfig from types.ts. -/
structure EmailServiceConfig where
  primaryProvider : Option EmailProviderType
  fallbackProvider : Option EmailProviderType

/-- The EmailService state: the provider registry (a Map in the source;
lookup may miss, mirroring providers.get) and the dispatch config. -/
structure EmailService where
  providers : EmailProviderType → Option EmailProvider
  config : EmailServiceConfig

/-- Which code path invoked a provider send during EmailService.send. -/
inductive ProviderRole where
  | primary
  | fallback
deriving DecidableEq, Repr

/-- The terminal failure returned when both attempts fail or are not
configured (email-service.ts, end of send). -/
def allProvidersFailedResult : EmailSendResult :=
  { success := false
    error := some "All email providers failed or are not configured" }

/-- The fallback half of EmailService.send: runs when the primary block
did not return. `calls` is the instrumented trace of provider sends so
far; the function returns the result together with the full trace. -/
def EmailService.sendViaFallback (svc : EmailService) (m : EmailMessage)
    (calls : List (ProviderRole × EmailProviderType)) :
    EmailSendResult × List (ProviderRole × EmailProviderType) :=
  match svc.config.fallbackProvider with
  | some ft =>
    if some ft ≠ svc.config.primaryProvider then
      match svc.providers ft with
      | some p =>
        if p.isConfigured then
          let r := p.send m
          let calls2 := calls ++ [(ProviderRole.fallback, ft)]
          if r.success then (r, calls2) else (allProvidersFailedResult, calls2)
        else (allProvidersFailedResult, calls)
      | none => (allProvidersFailedResult, calls)
    else (allProvidersFailedResult, calls)
  | none => (allProvidersFailedResult, calls)

/-- EmailService.send from email-service.ts, instrumented with the list
of provider sends it performs (in order), so that call counts can be
stated. Mirrors the source control flow: try the primary if present,
registered and configured; on its success return its result; otherwise
fall through to the fallback block. -/
def EmailService.send (svc : EmailService) (m : EmailMessage) :
    EmailSendResult × List (ProviderRole × EmailProviderType) :=
  match svc.config.primaryProvider with
  | some pt =>
    match svc.providers pt with
    | some p =>
      if p.isConfigured then
        let r := p.send m
        if r.success then (r, [(ProviderRole.primary, pt)])
        else svc.sendViaFallback m [(ProviderRole.primary, pt)]
      else svc.sendViaFallback m []
    | none => svc.sendViaFallback m []
  | none => svc.sendViaFallback m []

/-- True when the primary block of send attempts a provider and that
attempt succeeds (primary present, registered, configured, send ok). -/
def EmailService.primaryAttemptSucceeded (svc : EmailService) (m : EmailMessage) : Bool :=
  match svc.config.primaryProvider with
  | some pt =>
    match svc.providers pt with
    | some p => p.isConfigured && (p.send m).success
    | none => false
  | none => false

/-- True when the primary provider name is present, registered and the
registered instance is configured (provider?.isConfigured() truthy). -/
def EmailService.primaryConfigured (svc : EmailService) : Bool :=
  match svc.config.primaryProvider with
  | some pt =>
    match svc.providers pt with
    | some p => p.isConfigured
    | none => false
  | none => false

/-- True when the fallback block of send attempts a provider and that
attempt succeeds (fallback present, distinct from primary, registered,
configured, send ok). -/
def EmailService.fallbackAttemptSucceeded (svc : EmailService) (m : EmailMessage) : Bool :=
  match svc.config.fallbackProvider with
  | some ft =>
    decide (some ft ≠ svc.config.primaryProvider) &&
      (match svc.providers ft with
       | some p => p.isConfigured && (p.send m).success
       | none => false)
  | none => false

/-! ## SendGridProvider.send (src/lib/email/providers/sendgrid.ts) -/

/-- The error object a SendGrid transport throw carries: message, and
the optional response with a status code and a body.errors array (only
its messages matter to the handler). -/
structure SgErrorResponse where
  statusCode : Option Nat
  errorMessages : Option (List String)
deriving DecidableEq, Repr

/-- A SendGrid transport error (the caught exception). -/
structure SgError where
  message : String
  code : Option Nat
  response : Option SgErrorResponse
deriving DecidableEq, Repr

/-- One SendGrid transport attempt: either delivery with an optional
message id, or a thrown error. -/
inductive SgTransportOutcome where
  | delivered (messageId : Option String)
  | thrown (e : SgError)

/-- The userFriendlyError computation in the catch block of
SendGridProvider.send: else-if chain on error.response?.statusCode, defaulting to the
raw error.message. -/
def sgUserFriendlyError (e : SgError) : String :=
  let sc := match e.response with
    | some r => r.statusCode
    | none => none
  if sc = some 401 then
    "Email service authentication failed. Please contact support."
  else if sc = some 403 then
    "Email sending not authorized. Please contact support."
  else if sc = some 400 then
    match e.response with
    | some r =>
      match r.errorMessages with
      | some (m :: _) => if m = "" then "Invalid email request." else m
      | _ => "Invalid email request."
    | none => "Invalid email request."
  else if sc = some 429 then
    "Email service is busy. Please try again later."
  else if (match sc with | some n => decide (500 ≤ n) | none => false) then
    "Email service is temporarily unavailable. Please try again later."
  else
    e.message

/-- SendGridProvider.send: guard on the configured flag, then one
transport attempt, mapping the outcome to an EmailSendResult; every
path carries provider := sendgrid. -/
def sendGridSend (configured : Bool) (transport : EmailMessage → SgTransportOutcome)
    (m : EmailMessage) : EmailSendResult :=
  if !configured then
    { success := false
      error := some "SendGrid is not configured. Set SENDGRID_API_KEY environment variable."
      provider := some "sendgrid" }
  else
    match transport m with
    | SgTransportOutcome.delivered mid =>
      { success := true, messageId := mid, provider := some "sendgrid" }
    | SgTransportOutcome.thrown e =>
      { success := false, error := some (sgUserFriendlyError e), provider := some "sendgrid" }

/-- A SendGridProvider instance as registered by the EmailService
constructor: name sendgrid, the configured flag from the environment,
and sendGridSend as its send. -/
def sendGridProvider (configured : Bool) (transport : EmailMessage → SgTransportOutcome) :
    EmailProvider :=
  { name := "sendgrid"
    isConfigured := configured
    send := sendGridSend configured transport }

/-! ## Token validator (src/lib/auth.ts) -/

/-- String.startsWith, phrased over the character list so that it
computes by reduction. -/
def strStartsWith (s pre : String) : Bool :=
  pre.data.isPrefixOf s.data

/-- substring(n) on an ASCII header: drop the first n characters. -/
def strDrop (s : String) (n : Nat) : String :=
  String.mk (s.data.drop n)

/-- AuthenticatedUser from auth.ts: the claims decoded from a token. -/
structure AuthenticatedUser where
  userId : String
  email : String
  partnerId : Option String
  role : String
  plan : String
deriving DecidableEq, Repr

/-- Outcome of jwt.verify on a token string: decoded claims, a
TokenExpiredError, a JsonWebTokenError, or any other exception. -/
inductive JwtOutcome where
  | ok (claims : AuthenticatedUser)
  | tokenExpiredError
  | jsonWebTokenError
  | otherError
deriving DecidableEq, Repr

/-- Result of validateToken: either the decoded user, or a failure
carrying the AuthResult error field, the response body error message
and the HTTP status. -/
inductive AuthCheck where
  | ok (user : AuthenticatedUser)
  | fail (errorField : String) (respError : String) (status : Nat)
deriving DecidableEq, Repr

/-- validateToken from auth.ts: header presence and Bearer-shape checks,
then jwt.verify (passed in as `verify`), with the catch block mapping
TokenExpiredError and JsonWebTokenError to their fixed 401 responses. -/
def validateToken (verify : String → JwtOutcome) (authHeader : Option String) : AuthCheck :=
  match authHeader with
  | none =>
    AuthCheck.fail "Missing authorization token"
      "Missing authorization token. Please include \x27Authorization: Bearer <token>\x27 header." 401
  | some h =>
    if h = "" then
      AuthCheck.fail "Missing authorization token"
        "Missing authorization token. Please include \x27Authorization: Bearer <token>\x27 header." 401
    else if !strStartsWith h "Bearer " then
      AuthCheck.fail "Invalid authorization format"
        "Invalid authorization format. Use \x27Authorization: Bearer <token>\x27." 401
    else
      let token := strDrop h 7
      if token = "" then
        AuthCheck.fail "Empty token" "Authorization token is empty." 401
      else
        match verify token with
        | JwtOutcome.ok u => AuthCheck.ok u
        | JwtOutcome.tokenExpiredError =>
          AuthCheck.fail "Token expired" "Token has expired. Please login again." 401
        | JwtOutcome.jsonWebTokenError =>
          AuthCheck.fail "Invalid token" "Invalid token. Please login again." 401
        | JwtOutcome.otherError =>
          AuthCheck.fail "Authentication failed" "Authentication failed. Please login again." 401

/-- A token as the verification library sees it: whether its signature
is valid against the shared secret, whether its expiry has elapsed, and
the claims it encodes. -/
structure TokenModel where
  sigValid : Bool
  expired : Bool
  claims : AuthenticatedUser

/-- Modelled from the spec: the jsonwebtoken verify operation (an
external collaborator, not part of this repository). Per the spec,
validity = signature valid AND not expired; a bad signature or shape
raises JsonWebTokenError, a valid signature with elapsed expiry raises
TokenExpiredError, else the claims are returned. -/
def jwtVerifyModel (t : TokenModel) : JwtOutcome :=
  if !t.sigValid then JwtOutcome.jsonWebTokenError
  else if t.expired then JwtOutcome.tokenExpiredError
  else JwtOutcome.ok t.claims

/-! ## Login handlers (partner mode and api-key mode POST routes) -/

/-- apiAccess.status values from the User model. -/
inductive ApiAccessStatus where
  | noAccess
  | pending
  | approved
  | rejected
deriving DecidableEq, Repr

/-- The apiAccess sub-record of a user (the fields the login routes
read). -/
structure ApiAccess where
  status : ApiAccessStatus
  apiKey : Option String
deriving DecidableEq, Repr

/-- A stored user record (the fields the login routes read; ObjectIds
are modelled as strings, matching _id.toString() in the handlers). -/
structure UserRec where
  id : String
  name : String
  email : String
  plan : String
  role : String
  partnerId : Option String
  apiAccess : ApiAccess
deriving DecidableEq, Repr

/-- The external user store as the login handlers consume it: the three
findOne/findById query shapes and bcrypt comparePassword. -/
structure Db where
  findPartnerByEmail : String → Option UserRec
  findUserByEmailAndPartnerId : String → String → Option UserRec
  findUserByEmail : String → Option UserRec
  findUserById : String → Option UserRec
  comparePassword : UserRec → String → Bool

/-- The payload jwt.sign encodes in the session token. -/
structure TokenClaims where
  userId : String
  email : String
  partnerId : Option String
  role : String
  plan : String
deriving DecidableEq, Repr

/-- The partner summary object embedded in a login response. -/
structure PartnerSummary where
  id : String
  name : String
  email : String
deriving DecidableEq, Repr

/-- The user summary object of a 200 login response. -/
structure UserSummary where
  id : String
  name : String
  email : String
  plan : String
  role : String
  partner : Option PartnerSummary
deriving DecidableEq, Repr

/-- A login route response: HTTP status plus the JSON body fields the
route can set (absent fields are none; the signed token is represented
by its claims payload). -/
structure LoginResponse where
  status : Nat
  success : Bool
  error : Option String := none
  apiAccessStatus : Option ApiAccessStatus := none
  token : Option TokenClaims := none
  user : Option UserSummary := none
deriving DecidableEq, Repr

/-- JS falsiness of an optional string request field: absent or empty. -/
def strFalsy : Option String → Bool
  | none => true
  | some s => s = ""

/-- String.toLowerCase, phrased over the character list so that it
computes by reduction. -/
def strToLower (s : String) : String :=
  String.mk (s.data.map Char.toLower)

/-- The partner-verification login POST handler: field check, partner
lookup, user lookup scoped to the partner, password check, apiAccess
approval gate, then jwt.sign of the five claims and the 200 body. -/
def loginPartnerMode (db : Db) (username password partner : Option String) : LoginResponse :=
  if strFalsy username || strFalsy password || strFalsy partner then
    { status := 400, success := false
      error := some "Please provide username, password, and partner" }
  else
    match db.findPartnerByEmail (strToLower (partner.getD "")) with
    | none => { status := 401, success := false, error := some "Invalid partner" }
    | some partnerUser =>
      match db.findUserByEmailAndPartnerId (strToLower (username.getD "")) partnerUser.id with
      | none =>
        { status := 401, success := false
          error := some "Invalid credentials or you don\x27t belong to this partner" }
      | some user =>
        if !(db.comparePassword user (password.getD "")) then
          { status := 401, success := false, error := some "Invalid credentials" }
        else if user.apiAccess.status ≠ ApiAccessStatus.approved then
          { status := 403, success := false
            error := some "API access not approved. Please request API access first."
            apiAccessStatus := some user.apiAccess.status }
        else
          { status := 200, success := true
            token := some
              { userId := user.id, email := user.email
                partnerId := some partnerUser.id
                role := user.role, plan := user.plan }
            user := some
              { id := user.id, name := user.name, email := user.email
                plan := user.plan, role := user.role
                partner := some
                  { id := partnerUser.id, name := partnerUser.name
                    email := partnerUser.email } } }

/-- The api-key login POST handler: field check, user lookup by email,
password check, apiAccess approval gate, api-key match, best-effort
partner resolution, then jwt.sign of the five claims and the 200 body. -/
def loginApiKeyMode (db : Db) (username password apiKey : Option String) : LoginResponse :=
  if strFalsy username || strFalsy password || strFalsy apiKey then
    { status := 400, success := false
      error := some "Please provide username, password, and apiKey" }
  else
    match db.findUserByEmail (strToLower (username.getD "")) with
    | none => { status := 401, success := false, error := some "Invalid credentials" }
    | some user =>
      if !(db.comparePassword user (password.getD "")) then
        { status := 401, success := false, error := some "Invalid credentials" }
      else if user.apiAccess.status ≠ ApiAccessStatus.approved then
        { status := 403, success := false
          error := some "API access not approved. Please request API access first."
          apiAccessStatus := some user.apiAccess.status }
      else if strFalsy user.apiAccess.apiKey || user.apiAccess.apiKey ≠ some (apiKey.getD "") then
        { status := 401, success := false, error := some "Invalid API key" }
      else
        let partnerInfo :=
          match user.partnerId with
          | some pid =>
            match db.findUserById pid with
            | some pu => some { id := pu.id, name := pu.name, email := pu.email }
            | none => none
          | none => none
        { status := 200, success := true
          token := some
            { userId := user.id, email := user.email
              partnerId := user.partnerId
              role := user.role, plan := user.plan }
          user := some
            { id := user.id, name := user.name, email := user.email
              plan := user.plan, role := user.role
              partner := partnerInfo } }

/-! ## SMS handler (src/app/v1/messaging/send-sms/route.ts) -/

/-- The Twilio-side configuration the handler consults: whether the
client object was initialized (account SID and auth token present and
construction succeeded) and the TWILIO_PHONE_NUMBER value. -/
structure SmsConfig where
  hasClient : Bool
  phoneNumber : String
deriving DecidableEq, Repr

/-- A Twilio error (the caught exception): message and numeric code. -/
structure TwilioError where
  message : String
  code : Option Nat
deriving DecidableEq, Repr

/-- A created Twilio message: the fields the handler reads back. -/
structure TwilioMessageInfo where
  sid : String
  smsStatus : String
  numSegments : String
deriving DecidableEq, Repr

/-- One messages.create attempt: created or thrown. -/
inductive TwilioOutcome where
  | created (info : TwilioMessageInfo)
  | thrown (e : TwilioError)

/-- An SMS route response: HTTP status plus the JSON body fields the
route can set (absent fields are none; sentAt, a wall-clock timestamp,
is not modelled). -/
structure SmsResponse where
  status : Nat
  success : Bool
  message : Option String := none
  error : Option String := none
  details : Option String := none
  code : Option Nat := none
  businessGroup : Option String := none
  dataTo : Option String := none
  messageId : Option String := none
  smsStatus : Option String := none
  segments : Option String := none
deriving DecidableEq, Repr

/-- The character class stripped from the phone number before the regex
test and normalization: whitespace, parentheses, dashes. -/
def isStrippedPhoneChar (c : Char) : Bool :=
  c.isWhitespace || c = '(' || c = ')' || c = '-'

/-- to.replace of the stripped character class with nothing. -/
def stripPhone (s : String) : String :=
  String.mk (s.data.filter (fun c => !isStrippedPhoneChar c))

/-- The E.164-like phone regex of the route: an optional leading plus,
a first digit 1-9, then 1 to 14 further digits. -/
def phoneRegexTest (s : String) : Bool :=
  let cs :=
    match s.data with
    | '+' :: rest => rest
    | cs => cs
  match cs with
  | [] => false
  | c :: rest =>
    ('1' ≤ c && c ≤ '9') && decide (1 ≤ rest.length) &&
      decide (rest.length ≤ 14) && rest.all Char.isDigit

/-- The catch block of the SMS route: the Twilio code switch picks the
user-facing error and status, and the body carries error, details (the
raw error.message) and code. -/
def twilioCatch (e : TwilioError) : SmsResponse :=
  let pair :=
    match e.code with
    | some c =>
      if c = 0 then ("Failed to send SMS", 500)
      else if c = 21211 then ("Invalid phone number", 400)
      else if c = 21408 then ("Permission denied to send SMS to this number", 403)
      else if c = 21610 then ("Phone number is not reachable or opted out", 400)
      else if c = 21614 then ("Invalid phone number format", 400)
      else (if e.message = "" then "Failed to send SMS" else e.message, 500)
    | none => ("Failed to send SMS", 500)
  { status := pair.2, success := false
    error := some pair.1
    details := some e.message
    code := e.code }

/-- The dispatch tail of the SMS route: messages.create and the mapping
of its outcome to the 200 body or the catch block. -/
def smsSendStep (cfg : SmsConfig) (sendSms : String → String → String → TwilioOutcome)
    (businessGroup formattedTo messageText : String) : SmsResponse :=
  match sendSms messageText cfg.phoneNumber formattedTo with
  | TwilioOutcome.created info =>
    { status := 200, success := true
      message := some "SMS sent successfully"
      businessGroup := some businessGroup
      dataTo := some formattedTo
      messageId := some info.sid
      smsStatus := some info.smsStatus
      segments := some info.numSegments }
  | TwilioOutcome.thrown e => twilioCatch e

/-- The SMS POST handler after authentication: field checks, phone
regex test, the Twilio-configured gate, the business-group prefix, the
1600-character cap, phone normalization, then dispatch. String length
is codepoint length (the source counts UTF-16 units; they agree on the
inputs of interest). -/
def smsPost (cfg : SmsConfig) (sendSms : String → String → String → TwilioOutcome)
    (businessGroup toField smsBody : Option String) : SmsResponse :=
  if strFalsy businessGroup || strFalsy toField || strFalsy smsBody then
    { status := 400, success := false
      error := some "Please provide businessGroup, to, and body" }
  else if !phoneRegexTest (stripPhone (toField.getD "")) then
    { status := 400, success := false
      error := some "Invalid phone number format. Use E.164 format (e.g., +1234567890)" }
  else if !(cfg.hasClient && cfg.phoneNumber ≠ "") then
    { status := 500, success := false
      error := some "SMS service is not configured. Please contact administrator." }
  else
    let messageText := "[" ++ businessGroup.getD "" ++ "] " ++ smsBody.getD ""
    if 1600 < messageText.length then
      { status := 400, success := false
        error := some "Message body is too long. Maximum length is 1600 characters." }
    else
      let normalizedTo := stripPhone (toField.getD "")
      let formattedTo :=
        if strStartsWith normalizedTo "+" then normalizedTo else "+" ++ normalizedTo
      smsSendStep cfg sendSms (businessGroup.getD "") formattedTo messageText

/-! ## Email endpoint catch block (src/app/v1/messaging/send-email/route.ts) -/

/-- The errorDetails object the email route builds in its catch block
(the constructor-name field is omitted; it is a class name, not data
from the transport). -/
structure EmailErrorDetails where
  message : String
  code : Option Nat
  sendgridStatusCode : Option Nat := none
  sendgridErrors : Option (List String) := none
deriving DecidableEq, Repr

/-- An email route error response: status and body. -/
structure EmailErrorResponse where
  status : Nat
  success : Bool
  error : String
  details : EmailErrorDetails
deriving DecidableEq, Repr

/-- The catch block of the email route: error message and status from
the SendGrid response when present, details always carrying the raw
error.message and, when present, the raw provider error list. -/
def emailCatch (e : SgError) : EmailErrorResponse :=
  match e.response with
  | none =>
    { status := 500, success := false
      error := "Failed to send email"
      details := { message := e.message, code := e.code } }
  | some r =>
    let errorMessage :=
      match r.errorMessages with
      | some (m :: _) => if m = "" then "Failed to send email" else m
      | _ => "Failed to send email"
    let statusCode :=
      match r.statusCode with
      | some sc => if sc = 0 then 500 else sc
      | none => 500
    { status := statusCode, success := false
      error := errorMessage
      details :=
        { message := e.message, code := e.code
          sendgridStatusCode := r.statusCode
          sendgridErrors := r.errorMessages } }

/-! ## Concrete fixtures used by the witness theorems -/

/-- A concrete email message. -/
def msg0 : EmailMessage :=
  { toAddr := "a@b.co", fromAddr := "noreply@b.co", subject := "s", text := "t", html := "h" }

/-- A configured provider whose send always succeeds. -/
def okProvider (n : String) : EmailProvider :=
  { name := n, isConfigured := true
    send := fun _ => { success := true, messageId := some "id-1", provider := some n } }

/-- A configured provider whose send always fails. -/
def failProvider (n : String) : EmailProvider :=
  { name := n, isConfigured := true
    send := fun _ => { success := false, error := some "transport down", provider := some n } }

/-- An unconfigured provider. -/
def offProvider (n : String) : EmailProvider :=
  { name := n, isConfigured := false
    send := fun _ => { success := false, error := some "not configured", provider := some n } }

/-- Service: primary resend succeeds, fallback sendgrid would fail. -/
def svcPrimaryOk : EmailService :=
  { providers := fun t =>
      match t with
      | EmailProviderType.resend => some (okProvider "resend")
      | EmailProviderType.sendgrid => some (failProvider "sendgrid")
      | EmailProviderType.smtp => none
    config := { primaryProvider := some EmailProviderType.resend
                fallbackProvider := some EmailProviderType.sendgrid } }

/-- Service: primary resend unconfigured, fallback sendgrid succeeds. -/
def svcFallbackOk : EmailService :=
  { providers := fun t =>
      match t with
      | EmailProviderType.resend => some (offProvider "resend")
      | EmailProviderType.sendgrid => some (okProvider "sendgrid")
      | EmailProviderType.smtp => none
    config := { primaryProvider := some EmailProviderType.resend
                fallbackProvider := some EmailProviderType.sendgrid } }

/-- Service: both providers configured and failing. -/
def svcBothFail : EmailService :=
  { providers := fun t =>
      match t with
      | EmailProviderType.resend => some (failProvider "resend")
      | EmailProviderType.sendgrid => some (failProvider "sendgrid")
      | EmailProviderType.smtp => none
    config := { primaryProvider := some EmailProviderType.resend
                fallbackProvider := some EmailProviderType.sendgrid } }

/-- Concrete token claims. -/
def claims0 : AuthenticatedUser :=
  { userId := "u1", email := "user@x.co", partnerId := some "p1"
    role := "user", plan := "demo" }

/-- A token with a valid signature whose expiry has elapsed. -/
def expiredToken : TokenModel :=
  { sigValid := true, expired := true, claims := claims0 }

/-- A stored partner record. -/
def partnerRec0 : UserRec :=
  { id := "p1", name := "Partner One", email := "partner@x.co"
    plan := "professional", role := "partner", partnerId := none
    apiAccess := { status := ApiAccessStatus.approved, apiKey := none } }

/-- A user with a correct password whose apiAccess is still pending. -/
def userPending0 : UserRec :=
  { id := "u1", name := "User One", email := "user@x.co"
    plan := "demo", role := "user", partnerId := some "p1"
    apiAccess := { status := ApiAccessStatus.pending, apiKey := some "k1" } }

/-- The same user with apiAccess approved. -/
def userApproved0 : UserRec :=
  { id := "u1", name := "User One", email := "user@x.co"
    plan := "demo", role := "user", partnerId := some "p1"
    apiAccess := { status := ApiAccessStatus.approved, apiKey := some "k1" } }

/-- A store built around one user record and one partner record. -/
def dbWith (u : UserRec) : Db :=
  { findPartnerByEmail := fun e => if e = "partner@x.co" then some partnerRec0 else none
    findUserByEmailAndPartnerId := fun e pid =>
      if e = "user@x.co" && pid = "p1" then some u else none
    findUserByEmail := fun e => if e = "user@x.co" then some u else none
    findUserById := fun i => if i = "p1" then some partnerRec0 else none
    comparePassword := fun _ pw => pw = "secret" }

/-- A configured Twilio setup. -/
def cfgOn : SmsConfig := { hasClient := true, phoneNumber := "+15550001111" }

/-- An unconfigured Twilio setup (client never initialized). -/
def cfgOff : SmsConfig := { hasClient := false, phoneNumber := "" }

/-- A Twilio transport that always creates the message. -/
def sendOk : String → String → String → TwilioOutcome :=
  fun _ _ _ =>
    TwilioOutcome.created { sid := "SM1", smsStatus := "queued", numSegments := "1" }

/-- A 1596-character body: prefixed with a 1-character group it reaches
exactly 1600 characters. -/
def xs1596 : String := String.mk (List.replicate 1596 'x')

/-- A 1597-character body: prefixed with a 1-character group it exceeds
1600 characters. -/
def xs1597 : String := String.mk (List.replicate 1597 'x')

/-- A raw Twilio transport error with an unrecognized code. -/
def rawTwilioErr : TwilioError :=
  { message := "connect ECONNREFUSED 10.0.0.5:443", code := some 99999 }

/-- A raw SendGrid transport error with a 401 response. -/
def rawSgErr : SgError :=
  { message := "Unauthorized: request to api.sendgrid.com failed"
    code := none
    response := some
      { statusCode := some 401
        errorMessages := some ["The provided authorization grant is invalid"] } }

/-! ## Router helper lemmas -/

/-- If the fallback block records a fallback send in the trace, then the
fallback name is set, differs from the primary name, and the registered
instance is configured. -/
theorem sendViaFallback_mem
    (svc : EmailService) (m : EmailMessage) (calls : List (ProviderRole × EmailProviderType))
    (ft : EmailProviderType)
    (hnotin : (ProviderRole.fallback, ft) ∉ calls)
    (h : (ProviderRole.fallback, ft) ∈ (svc.sendViaFallback m calls).2) :
    svc.config.fallbackProvider = some ft ∧
      some ft ≠ svc.config.primaryProvider ∧
      ∃ p, svc.providers ft = some p ∧ p.isConfigured = true := by
  unfold EmailService.sendViaFallback at h
  cases hf : svc.config.fallbackProvider with
  | none => rw [hf] at h; exact absurd h hnotin
  | some ft2 =>
    rw [hf] at h
    by_cases hne : some ft2 ≠ svc.config.primaryProvider
    · simp only [if_pos hne] at h
      cases hp : svc.providers ft2 with
      | none => rw [hp] at h; exact absurd h hnotin
      | some p =>
        rw [hp] at h
        by_cases hc : p.isConfigured
        · simp only [hc, if_true] at h
          by_cases hs : (p.send m).success
          · simp only [hs, if_true, List.mem_append, List.mem_singleton] at h
            rcases h with h | h
            · exact absurd h hnotin
            · have hfe : ft = ft2 := by injection h
              subst hfe
              exact ⟨rfl, hne, p, hp, hc⟩
          · simp only [hs, if_false, List.mem_append, List.mem_singleton,
              Bool.false_eq_true] at h
            rcases h with h | h
            · exact absurd h hnotin
            · have hfe : ft = ft2 := by injection h
              subst hfe
              exact ⟨rfl, hne, p, hp, hc⟩
        · simp only [hc, if_false, Bool.false_eq_true] at h
          exact absurd h hnotin
    · simp only [if_neg hne] at h
      exact absurd h hnotin

/-- When the primary name is absent, unregistered or unconfigured, send
reduces to the fallback block with an empty trace. -/
theorem send_eq_fallback_of_primary_unconfigured
    (svc : EmailService) (m : EmailMessage)
    (h : svc.primaryConfigured = false) :
    svc.send m = svc.sendViaFallback m [] := by
  unfold EmailService.primaryConfigured at h
  unfold EmailService.send
  cases hpt : svc.config.primaryProvider with
  | none => rfl
  | some pt =>
    simp only [hpt] at h
    cases hp : svc.providers pt with
    | none => simp [hp]
    | some p =>
      simp only [hp] at h
      simp [hp, h]

/-- The fallback block returns the result of the fallback provider when the
guards pass and its send succeeds. -/
theorem sendViaFallback_success_eq
    (svc : EmailService) (m : EmailMessage) (calls : List (ProviderRole × EmailProviderType))
    (ft : EmailProviderType) (p : EmailProvider)
    (hft : svc.config.fallbackProvider = some ft)
    (hne : some ft ≠ svc.config.primaryProvider)
    (hp : svc.providers ft = some p)
    (hc : p.isConfigured = true)
    (hs : (p.send m).success = true) :
    svc.sendViaFallback m calls = (p.send m, calls ++ [(ProviderRole.fallback, ft)]) := by
  unfold EmailService.sendViaFallback
  simp [hft, hne, hp, hc, hs]

/-- The fallback block ends in the terminal failure whenever no
successful fallback attempt is possible. -/
theorem sendViaFallback_fail_eq
    (svc : EmailService) (m : EmailMessage) (calls : List (ProviderRole × EmailProviderType))
    (h : svc.fallbackAttemptSucceeded m = false) :
    (svc.sendViaFallback m calls).1 = allProvidersFailedResult := by
  unfold EmailService.fallbackAttemptSucceeded at h
  unfold EmailService.sendViaFallback
  cases hf : svc.config.fallbackProvider with
  | none => rfl
  | some ft =>
    simp only [hf] at h
    by_cases hne : some ft ≠ svc.config.primaryProvider
    · cases hp : svc.providers ft with
      | none => simp [hne, hp]
      | some p =>
        by_cases hc : p.isConfigured = true
        · by_cases hs : (p.send m).success = true
          · exfalso
            simp [hne, hp, hc, hs] at h
          · rw [Bool.not_eq_true] at hs
            simp [hne, hp, hc, hs]
        · rw [Bool.not_eq_true] at hc
          simp [hne, hp, hc]
    · simp [hne]

/-- Everything in the trace of the fallback block is either an inherited
call or a fallback send of a registered, configured provider. -/
theorem sendViaFallback_trace_subset
    (svc : EmailService) (m : EmailMessage) (calls : List (ProviderRole × EmailProviderType))
    (x : ProviderRole × EmailProviderType)
    (hx : x ∈ (svc.sendViaFallback m calls).2) :
    x ∈ calls ∨ ∃ ft p, x = (ProviderRole.fallback, ft) ∧
      svc.providers ft = some p ∧ p.isConfigured = true := by
  unfold EmailService.sendViaFallback at hx
  cases hf : svc.config.fallbackProvider with
  | none => rw [hf] at hx; exact Or.inl hx
  | some ft =>
    rw [hf] at hx
    by_cases hne : some ft ≠ svc.config.primaryProvider
    · simp only [if_pos hne] at hx
      cases hp : svc.providers ft with
      | none => rw [hp] at hx; exact Or.inl hx
      | some p =>
        rw [hp] at hx
        by_cases hc : p.isConfigured
        · simp only [hc, if_true] at hx
          by_cases hs : (p.send m).success
          · simp only [hs, if_true, List.mem_append, List.mem_singleton] at hx
            rcases hx with hx | hx
            · exact Or.inl hx
            · exact Or.inr ⟨ft, p, hx, hp, hc⟩
          · simp only [hs, if_false, List.mem_append, List.mem_singleton,
              Bool.false_eq_true] at hx
            rcases hx with hx | hx
            · exact Or.inl hx
            · exact Or.inr ⟨ft, p, hx, hp, hc⟩
        · simp only [hc, if_false, Bool.false_eq_true] at hx
          exact Or.inl hx
    · simp only [if_neg hne] at hx
      exact Or.inl hx

/-! ## Claim theorems: dispatch router -/

/-- C1: for every email message, if the primary provider of the
Dispatch Router is configured and its send reports success, the router
returns that result immediately and the send of the fallback provider
is never invoked: the call trace is exactly the one primary send. -/
theorem dispatch_primary_success_returns_immediately
    (svc : EmailService) (m : EmailMessage) (pt : EmailProviderType) (p : EmailProvider)
    (hpt : svc.config.primaryProvider = some pt)
    (hp : svc.providers pt = some p)
    (hc : p.isConfigured = true)
    (hs : (p.send m).success = true) :
    svc.send m = (p.send m, [(ProviderRole.primary, pt)]) := by
  unfold EmailService.send
  simp [hpt, hp, hc, hs]

/-- Witness for C1: on a service whose primary resend succeeds, send
returns the primary result with a one-element primary-only trace. -/
theorem dispatch_primary_success_returns_immediately_witness :
    svcPrimaryOk.send msg0 =
      ({ success := true, messageId := some "id-1", provider := some "resend" },
        [(ProviderRole.primary, EmailProviderType.resend)]) :=
  dispatch_primary_success_returns_immediately svcPrimaryOk msg0
    EmailProviderType.resend (okProvider "resend") rfl rfl rfl rfl

/-- C2: the fallback provider is attempted only when the primary
attempt did not succeed, the fallback name differs from the primary
name and the fallback is configured; and when the primary is
unconfigured and the fallback is configured and its send succeeds, the
provider field of the returned result is the fallback provider name. -/
theorem dispatch_fallback_gating_and_provider_name
    (svc : EmailService) (m : EmailMessage) (ft : EmailProviderType) (p : EmailProvider)
    (hft : svc.config.fallbackProvider = some ft)
    (hp : svc.providers ft = some p)
    (hwf : ∀ m2, (p.send m2).provider = some p.name) :
    ((ProviderRole.fallback, ft) ∈ (svc.send m).2 →
        svc.primaryAttemptSucceeded m = false ∧
        some ft ≠ svc.config.primaryProvider ∧ p.isConfigured = true) ∧
    (svc.primaryConfigured = false → p.isConfigured = true →
        (p.send m).success = true → (svc.send m).1.provider = some p.name) := by
  constructor
  · intro hmem
    unfold EmailService.send at hmem
    cases hpt : svc.config.primaryProvider with
    | none =>
      simp only [hpt] at hmem
      rcases sendViaFallback_mem svc m [] ft (by simp) hmem with ⟨_, hne, q, hq, hqc⟩
      rw [hp] at hq
      have hqp : p = q := by injection hq
      subst hqp
      rw [hpt] at hne
      refine ⟨?_, hne, hqc⟩
      unfold EmailService.primaryAttemptSucceeded
      simp [hpt]
    | some pt =>
      simp only [hpt] at hmem
      cases hpv : svc.providers pt with
      | none =>
        simp only [hpv] at hmem
        rcases sendViaFallback_mem svc m [] ft (by simp) hmem with ⟨_, hne, q, hq, hqc⟩
        rw [hp] at hq
        have hqp : p = q := by injection hq
        subst hqp
        rw [hpt] at hne
        refine ⟨?_, hne, hqc⟩
        unfold EmailService.primaryAttemptSucceeded
        simp [hpt, hpv]
      | some q =>
        simp only [hpv] at hmem
        by_cases hqc : q.isConfigured = true
        · by_cases hqs : (q.send m).success = true
          · simp only [hqc, hqs, if_true] at hmem
            simp at hmem
          · rw [Bool.not_eq_true] at hqs
            simp only [hqc, hqs, if_true, Bool.false_eq_true, if_false] at hmem
            rcases sendViaFallback_mem svc m [(ProviderRole.primary, pt)] ft
                (by simp) hmem with ⟨_, hne, r, hr, hrc⟩
            rw [hp] at hr
            have hrp : p = r := by injection hr
            subst hrp
            rw [hpt] at hne
            refine ⟨?_, hne, hrc⟩
            unfold EmailService.primaryAttemptSucceeded
            simp [hpt, hpv, hqs]
        · rw [Bool.not_eq_true] at hqc
          simp only [hqc, Bool.false_eq_true, if_false] at hmem
          rcases sendViaFallback_mem svc m [] ft (by simp) hmem with ⟨_, hne, r, hr, hrc⟩
          rw [hp] at hr
          have hrp : p = r := by injection hr
          subst hrp
          rw [hpt] at hne
          refine ⟨?_, hne, hrc⟩
          unfold EmailService.primaryAttemptSucceeded
          simp [hpt, hpv, hqc]
  · intro hpc hc hs
    have hne : some ft ≠ svc.config.primaryProvider := by
      intro he
      unfold EmailService.primaryConfigured at hpc
      rw [← he] at hpc
      simp only [hp] at hpc
      rw [hc] at hpc
      exact Bool.true_eq_false.mp hpc
    rw [send_eq_fallback_of_primary_unconfigured svc m hpc,
      sendViaFallback_success_eq svc m [] ft p hft hne hp hc hs]
    exact hwf m

/-- Witness for C2: on a service with an unconfigured primary and a
succeeding fallback sendgrid, the fallback call is in the trace with
the gating facts, and the result provider is sendgrid. -/
theorem dispatch_fallback_gating_and_provider_name_witness :
    (svcFallbackOk.primaryAttemptSucceeded msg0 = false ∧
      some EmailProviderType.sendgrid ≠ svcFallbackOk.config.primaryProvider ∧
      (okProvider "sendgrid").isConfigured = true) ∧
    (svcFallbackOk.send msg0).1.provider = some "sendgrid" :=
  ⟨(dispatch_fallback_gating_and_provider_name svcFallbackOk msg0
      EmailProviderType.sendgrid (okProvider "sendgrid") rfl rfl (fun _ => rfl)).1
      (by decide),
    (dispatch_fallback_gating_and_provider_name svcFallbackOk msg0
      EmailProviderType.sendgrid (okProvider "sendgrid") rfl rfl (fun _ => rfl)).2
      rfl rfl rfl⟩

/-- C3: if neither the primary nor the fallback attempt succeeds
(including when neither is configured), send returns exactly the
terminal failure: success false, the fixed error string, and no
provider or messageId field. -/
theorem dispatch_all_failed_result
    (svc : EmailService) (m : EmailMessage)
    (hps : svc.primaryAttemptSucceeded m = false)
    (hfs : svc.fallbackAttemptSucceeded m = false) :
    (svc.send m).1 = allProvidersFailedResult ∧
    (svc.send m).1.provider = none := by
  have hmain : (svc.send m).1 = allProvidersFailedResult := by
    unfold EmailService.send
    unfold EmailService.primaryAttemptSucceeded at hps
    cases hpt : svc.config.primaryProvider with
    | none =>
      simp only [hpt]
      exact sendViaFallback_fail_eq svc m [] hfs
    | some pt =>
      simp only [hpt] at hps
      cases hpv : svc.providers pt with
      | none =>
        simp only [hpv]
        exact sendViaFallback_fail_eq svc m [] hfs
      | some q =>
        simp only [hpv] at hps
        by_cases hqc : q.isConfigured = true
        · by_cases hqs : (q.send m).success = true
          · rw [hqc, hqs] at hps
            exact absurd hps (by simp)
          · rw [Bool.not_eq_true] at hqs
            simp only [hpv, hqc, hqs, if_true, Bool.false_eq_true, if_false]
            exact sendViaFallback_fail_eq svc m [(ProviderRole.primary, pt)] hfs
        · rw [Bool.not_eq_true] at hqc
          simp only [hpv, hqc, Bool.false_eq_true, if_false]
          exact sendViaFallback_fail_eq svc m [] hfs
  exact ⟨hmain, by rw [hmain]; rfl⟩

/-- Witness for C3: on a service whose primary and fallback both fail,
send returns the terminal failure with no provider field. -/
theorem dispatch_all_failed_result_witness :
    (svcBothFail.send msg0).1 = allProvidersFailedResult ∧
    (svcBothFail.send msg0).1.provider = none :=
  dispatch_all_failed_result svcBothFail msg0 rfl rfl

/-- C4: a provider registered in the router whose isConfigured is false
never appears in the send call trace, under either role. -/
theorem unconfigured_provider_never_sent
    (svc : EmailService) (m : EmailMessage) (pt : EmailProviderType) (p : EmailProvider)
    (role : ProviderRole)
    (hp : svc.providers pt = some p)
    (hc : p.isConfigured = false) :
    (role, pt) ∉ (svc.send m).2 := by
  intro hmem
  unfold EmailService.send at hmem
  cases hpt : svc.config.primaryProvider with
  | none =>
    simp only [hpt] at hmem
    rcases sendViaFallback_trace_subset svc m [] (role, pt) hmem with h | ⟨ft, q, hx, hq, hqc⟩
    · simp at h
    · have hfe : pt = ft := by injection hx
      subst hfe
      rw [hp] at hq
      have hqp : p = q := by injection hq
      subst hqp
      rw [hc] at hqc
      exact Bool.false_eq_true.mp hqc
  | some pt2 =>
    simp only [hpt] at hmem
    cases hpv : svc.providers pt2 with
    | none =>
      simp only [hpv] at hmem
      rcases sendViaFallback_trace_subset svc m [] (role, pt) hmem with h | ⟨ft, q, hx, hq, hqc⟩
      · simp at h
      · have hfe : pt = ft := by injection hx
        subst hfe
        rw [hp] at hq
        have hqp : p = q := by injection hq
        subst hqp
        rw [hc] at hqc
        exact Bool.false_eq_true.mp hqc
    | some q =>
      simp only [hpv] at hmem
      by_cases hqc2 : q.isConfigured = true
      · by_cases hqs : (q.send m).success = true
        · simp only [hqc2, hqs, if_true] at hmem
          simp only [List.mem_singleton] at hmem
          have hpe : pt = pt2 := by injection hmem
          subst hpe
          rw [hp] at hpv
          have hqp : p = q := by injection hpv
          subst hqp
          rw [hc] at hqc2
          exact Bool.false_eq_true.mp hqc2
        · rw [Bool.not_eq_true] at hqs
          simp only [hqc2, hqs, if_true, Bool.false_eq_true, if_false] at hmem
          rcases sendViaFallback_trace_subset svc m [(ProviderRole.primary, pt2)]
              (role, pt) hmem with h | ⟨ft, r, hx, hr, hrc⟩
          · simp only [List.mem_singleton] at h
            have hpe : pt = pt2 := by injection h
            subst hpe
            rw [hp] at hpv
            have hqp : p = q := by injection hpv
            subst hqp
            rw [hc] at hqc2
            exact Bool.false_eq_true.mp hqc2
          · have hfe : pt = ft := by injection hx
            subst hfe
            rw [hp] at hr
            have hrp : p = r := by injection hr
            subst hrp
            rw [hc] at hrc
            exact Bool.false_eq_true.mp hrc
      · rw [Bool.not_eq_true] at hqc2
        simp only [hqc2, Bool.false_eq_true, if_false] at hmem
        rcases sendViaFallback_trace_subset svc m [] (role, pt) hmem with h | ⟨ft, r, hx, hr, hrc⟩
        · simp at h
        · have hfe : pt = ft := by injection hx
          subst hfe
          rw [hp] at hr
          have hrp : p = r := by injection hr
          subst hrp
          rw [hc] at hrc
          exact Bool.false_eq_true.mp hrc

/-- Witness for C4: on the service whose resend registration is
unconfigured, no resend send occurs under either role. -/
theorem unconfigured_provider_never_sent_witness :
    (ProviderRole.primary, EmailProviderType.resend) ∉ (svcFallbackOk.send msg0).2 ∧
    (ProviderRole.fallback, EmailProviderType.resend) ∉ (svcFallbackOk.send msg0).2 :=
  ⟨unconfigured_provider_never_sent svcFallbackOk msg0 EmailProviderType.resend
      (offProvider "resend") ProviderRole.primary rfl rfl,
    unconfigured_provider_never_sent svcFallbackOk msg0 EmailProviderType.resend
      (offProvider "resend") ProviderRole.fallback rfl rfl⟩

/-! ## Claim theorems: error sanitization (C5) -/

/-- C5 counterexample: at a concrete Twilio transport error with an
unrecognized code, the SMS handler error response carries the raw
transport error message in both its error and details fields, so error
results are not free of raw transport payloads. -/
theorem sms_error_response_contains_raw_transport_message :
    (twilioCatch rawTwilioErr).error = some "connect ECONNREFUSED 10.0.0.5:443" ∧
    (twilioCatch rawTwilioErr).details = some "connect ECONNREFUSED 10.0.0.5:443" :=
  ⟨rfl, rfl⟩

/-- C5 amended: for recognized Twilio error codes the error field is a
fixed sanitized message, but every SMS error response carries the raw
provider error message in its details field, and the email handler
error responses likewise embed the raw provider message in details. -/
theorem error_responses_carry_raw_details
    (te : TwilioError) (ee : SgError) :
    (twilioCatch te).details = some te.message ∧
    (emailCatch ee).details.message = ee.message ∧
    (te.code = some 21211 → (twilioCatch te).error = some "Invalid phone number") ∧
    (te.code = some 21408 →
      (twilioCatch te).error = some "Permission denied to send SMS to this number") ∧
    (te.code = some 21610 →
      (twilioCatch te).error = some "Phone number is not reachable or opted out") ∧
    (te.code = some 21614 → (twilioCatch te).error = some "Invalid phone number format") := by
  refine ⟨rfl, ?_, ?_, ?_, ?_, ?_⟩
  · cases hr : ee.response <;> simp [emailCatch, hr]
  · intro h; simp [twilioCatch, h]
  · intro h; simp [twilioCatch, h]
  · intro h; simp [twilioCatch, h]
  · intro h; simp [twilioCatch, h]

/-- Witness for the amended C5: a concrete recognized-code Twilio error
yields the sanitized error field yet raw details, and a concrete
SendGrid error response details carry its raw message. -/
theorem error_responses_carry_raw_details_witness :
    (twilioCatch { message := "raw twilio boom", code := some 21211 }).details =
      some "raw twilio boom" ∧
    (twilioCatch { message := "raw twilio boom", code := some 21211 }).error =
      some "Invalid phone number" ∧
    (emailCatch rawSgErr).details.message =
      "Unauthorized: request to api.sendgrid.com failed" := by
  obtain ⟨h1, h2, h3, _, _, _⟩ :=
    error_responses_carry_raw_details { message := "raw twilio boom", code := some 21211 } rawSgErr
  exact ⟨h1, h3 rfl, h2⟩

/-! ## Claim theorems: token validator (C6) -/

/-- C6: an inbound token with a valid signature whose expiry has
elapsed is rejected with the Expired failure (the fixed message and
HTTP 401) and never with the Invalid failure. -/
theorem expired_token_rejected_as_expired
    (t : TokenModel) (h : String)
    (hnz : h ≠ "")
    (hb : strStartsWith h "Bearer " = true)
    (htok : strDrop h 7 ≠ "")
    (hsig : t.sigValid = true)
    (hexp : t.expired = true) :
    validateToken (fun _ => jwtVerifyModel t) (some h) =
      AuthCheck.fail "Token expired" "Token has expired. Please login again." 401 ∧
    validateToken (fun _ => jwtVerifyModel t) (some h) ≠
      AuthCheck.fail "Invalid token" "Invalid token. Please login again." 401 := by
  have hv : validateToken (fun _ => jwtVerifyModel t) (some h) =
      AuthCheck.fail "Token expired" "Token has expired. Please login again." 401 := by
    unfold validateToken jwtVerifyModel
    simp [hnz, hb, htok, hsig, hexp]
  exact ⟨hv, by rw [hv]; decide⟩

/-- Witness for C6: a concrete Bearer header with a signature-valid,
expired token is rejected with the Expired failure. -/
theorem expired_token_rejected_as_expired_witness :
    validateToken (fun _ => jwtVerifyModel expiredToken) (some "Bearer abc") =
      AuthCheck.fail "Token expired" "Token has expired. Please login again." 401 :=
  (expired_token_rejected_as_expired expiredToken "Bearer abc"
    (by decide) (by decide) (by decide) rfl rfl).1

/-! ## Claim theorems: login access gate (C7) and token claims (C8) -/

/-- C7: in both login modes, a looked-up user whose apiAccess.status is
not approved is rejected with HTTP 403 and a body carrying success
false, the fixed error and the current status, even when the password
compares correct. -/
theorem non_approved_status_blocks_login :
    (∀ (db : Db) (u p pr : Option String) (pu user : UserRec),
      strFalsy u = false → strFalsy p = false → strFalsy pr = false →
      db.findPartnerByEmail (strToLower (pr.getD "")) = some pu →
      db.findUserByEmailAndPartnerId (strToLower (u.getD "")) pu.id = some user →
      db.comparePassword user (p.getD "") = true →
      user.apiAccess.status ≠ ApiAccessStatus.approved →
      loginPartnerMode db u p pr =
        { status := 403, success := false
          error := some "API access not approved. Please request API access first."
          apiAccessStatus := some user.apiAccess.status }) ∧
    (∀ (db : Db) (u p k : Option String) (user : UserRec),
      strFalsy u = false → strFalsy p = false → strFalsy k = false →
      db.findUserByEmail (strToLower (u.getD "")) = some user →
      db.comparePassword user (p.getD "") = true →
      user.apiAccess.status ≠ ApiAccessStatus.approved →
      loginApiKeyMode db u p k =
        { status := 403, success := false
          error := some "API access not approved. Please request API access first."
          apiAccessStatus := some user.apiAccess.status }) := by
  constructor
  · intro db u p pr pu user hu hpw hpr hfp hfu hcp hst
    unfold loginPartnerMode
    simp [hu, hpw, hpr, hfp, hfu, hcp, hst]
  · intro db u p k user hu hpw hk hfu hcp hst
    unfold loginApiKeyMode
    simp [hu, hpw, hk, hfu, hcp, hst]

/-- Witness for C7: with a correct password and pending apiAccess, both
login modes answer 403 with the pending status in the body. -/
theorem non_approved_status_blocks_login_witness :
    loginPartnerMode (dbWith userPending0) (some "user@x.co") (some "secret")
        (some "partner@x.co") =
      { status := 403, success := false
        error := some "API access not approved. Please request API access first."
        apiAccessStatus := some ApiAccessStatus.pending } ∧
    loginApiKeyMode (dbWith userPending0) (some "user@x.co") (some "secret") (some "k1") =
      { status := 403, success := false
        error := some "API access not approved. Please request API access first."
        apiAccessStatus := some ApiAccessStatus.pending } :=
  ⟨non_approved_status_blocks_login.1 (dbWith userPending0) (some "user@x.co")
      (some "secret") (some "partner@x.co") partnerRec0 userPending0
      rfl rfl rfl (by decide) (by decide) (by decide) (by decide),
    non_approved_status_blocks_login.2 (dbWith userPending0) (some "user@x.co")
      (some "secret") (some "k1") userPending0
      rfl rfl rfl (by decide) (by decide) (by decide)⟩

/-- C8: a successful partner-mode login issues a token whose claims are
exactly userId, email, partnerId, role and plan, taken from the
authenticated user and the verified partner record. -/
theorem partner_login_token_claims_exact
    (db : Db) (u p pr : Option String) (pu user : UserRec)
    (hu : strFalsy u = false) (hpw : strFalsy p = false) (hpr : strFalsy pr = false)
    (hfp : db.findPartnerByEmail (strToLower (pr.getD "")) = some pu)
    (hfu : db.findUserByEmailAndPartnerId (strToLower (u.getD "")) pu.id = some user)
    (hcp : db.comparePassword user (p.getD "") = true)
    (hst : user.apiAccess.status = ApiAccessStatus.approved) :
    (loginPartnerMode db u p pr).token =
      some { userId := user.id, email := user.email, partnerId := some pu.id
             role := user.role, plan := user.plan } ∧
    (loginPartnerMode db u p pr).status = 200 := by
  unfold loginPartnerMode
  simp [hu, hpw, hpr, hfp, hfu, hcp, hst]

/-- Witness for C8: a concrete approved user logging in through the
partner mode gets a token carrying exactly the five expected claims. -/
theorem partner_login_token_claims_exact_witness :
    (loginPartnerMode (dbWith userApproved0) (some "user@x.co") (some "secret")
        (some "partner@x.co")).token =
      some { userId := "u1", email := "user@x.co", partnerId := some "p1"
             role := "user", plan := "demo" } ∧
    (loginPartnerMode (dbWith userApproved0) (some "user@x.co") (some "secret")
        (some "partner@x.co")).status = 200 :=
  partner_login_token_claims_exact (dbWith userApproved0) (some "user@x.co")
    (some "secret") (some "partner@x.co") partnerRec0 userApproved0
    rfl rfl rfl (by decide) (by decide) (by decide) rfl

/-! ## Claim theorems: SMS length cap (C9) and check ordering (C10) -/

/-- C9: with fields and phone format valid and the provider configured,
a prefixed message longer than 1600 characters yields exactly the 400
too-long error, while a prefixed message of exactly 1600 characters is
accepted and dispatched to the provider. -/
theorem sms_length_cap
    (cfg : SmsConfig) (sendSms : String → String → String → TwilioOutcome)
    (bg toF body : Option String)
    (h1 : strFalsy bg = false) (h2 : strFalsy toF = false) (h3 : strFalsy body = false)
    (hphone : phoneRegexTest (stripPhone (toF.getD "")) = true)
    (hclient : cfg.hasClient = true) (hpn : cfg.phoneNumber ≠ "") :
    (1600 < ("[" ++ bg.getD "" ++ "] " ++ body.getD "").length →
      smsPost cfg sendSms bg toF body =
        { status := 400, success := false
          error := some "Message body is too long. Maximum length is 1600 characters." }) ∧
    (("[" ++ bg.getD "" ++ "] " ++ body.getD "").length = 1600 →
      smsPost cfg sendSms bg toF body =
        smsSendStep cfg sendSms (bg.getD "")
          (if strStartsWith (stripPhone (toF.getD "")) "+" = true then
            stripPhone (toF.getD "")
          else "+" ++ stripPhone (toF.getD ""))
          ("[" ++ bg.getD "" ++ "] " ++ body.getD "")) := by
  constructor
  · intro hlen
    unfold smsPost
    simp [h1, h2, h3, hphone, hclient, hpn, hlen, -String.length_append]
  · intro hlen
    unfold smsPost
    simp [h1, h2, h3, hphone, hclient, hpn, hlen, -String.length_append]

/-- Witness for C9: with a one-character group, a 1597-character body
(1601 prefixed) is rejected with the 400 too-long error, and a
1596-character body (1600 prefixed) is dispatched and succeeds. -/
theorem sms_length_cap_witness :
    smsPost cfgOn sendOk (some "g") (some "+12345678901") (some xs1597) =
      { status := 400, success := false
        error := some "Message body is too long. Maximum length is 1600 characters." } ∧
    smsPost cfgOn sendOk (some "g") (some "+12345678901") (some xs1596) =
      { status := 200, success := true
        message := some "SMS sent successfully"
        businessGroup := some "g"
        dataTo := some "+12345678901"
        messageId := some "SM1"
        smsStatus := some "queued"
        segments := some "1" } := by
  have base := sms_length_cap cfgOn sendOk (some "g") (some "+12345678901")
  have h4 : ("[" ++ ("g" : String) ++ "] ").length = 4 := by decide
  have hlen97 : 1600 <
      ("[" ++ (some "g").getD "" ++ "] " ++ ((some xs1597).getD "")).length := by
    simp only [Option.getD_some]
    rw [String.length_append]
    have hx : xs1597.length = 1597 := List.length_replicate 1597 'x'
    rw [hx, h4]
    norm_num
  have hlen96 :
      ("[" ++ (some "g").getD "" ++ "] " ++ ((some xs1596).getD "")).length = 1600 := by
    simp only [Option.getD_some]
    rw [String.length_append]
    have hx : xs1596.length = 1596 := List.length_replicate 1596 'x'
    rw [hx, h4]
  constructor
  · exact (base (some xs1597) rfl rfl rfl (by decide) rfl (by decide)).1 hlen97
  · exact ((base (some xs1596) rfl rfl rfl (by decide) rfl (by decide)).2 hlen96).trans rfl

/-- C10: the provider-configured check runs before the length check:
with valid fields and phone format but Twilio unconfigured, the
response is the 500 not-configured error even when the prefixed body
exceeds 1600 characters. -/
theorem sms_unconfigured_check_precedes_length
    (cfg : SmsConfig) (sendSms : String → String → String → TwilioOutcome)
    (bg toF body : Option String)
    (h1 : strFalsy bg = false) (h2 : strFalsy toF = false) (h3 : strFalsy body = false)
    (hphone : phoneRegexTest (stripPhone (toF.getD "")) = true)
    (hcfg : (cfg.hasClient && decide (cfg.phoneNumber ≠ "")) = false)
    (hlen : 1600 < ("[" ++ bg.getD "" ++ "] " ++ body.getD "").length) :
    smsPost cfg sendSms bg toF body =
      { status := 500, success := false
        error := some "SMS service is not configured. Please contact administrator." } := by
  unfold smsPost
  simp [h1, h2, h3, hphone, hcfg, -String.length_append]
  intro hca hpn2
  rw [hca] at hcfg
  simp at hcfg
  exact absurd hcfg hpn2

/-- Witness for C10: with valid fields and a 1601-character prefixed
body but no Twilio client, the handler answers the 500 not-configured
error, not the 400 length error. -/
theorem sms_unconfigured_check_precedes_length_witness :
    smsPost cfgOff sendOk (some "g") (some "+12345678901") (some xs1597) =
      { status := 500, success := false
        error := some "SMS service is not configured. Please contact administrator." } := by
  have h4 : ("[" ++ ("g" : String) ++ "] ").length = 4 := by decide
  have hlen97 : 1600 <
      ("[" ++ (some "g").getD "" ++ "] " ++ ((some xs1597).getD "")).length := by
    simp only [Option.getD_some]
    rw [String.length_append]
    have hx : xs1597.length = 1597 := List.length_replicate 1597 'x'
    rw [hx, h4]
    norm_num
  exact sms_unconfigured_check_precedes_length cfgOff sendOk (some "g")
    (some "+12345678901") (some xs1597) rfl rfl rfl (by decide) rfl hlen97

end Ultrareach
